import Mathlib

/-!
Verification of the authentication and authorization core of a role-gated
REST backend (NestJS). The definitions below are a shallow embedding of:

* `src/profiles/entities/profile.entity.ts` — the `Role` enum and the
  `Profile` identity record;
* `src/auth/auth.service.ts` (`AuthService`) — `signIn`, `signOut`,
  `refreshTokens`, and the private helpers `getTokens` and
  `saveRefreshToken`;
* `src/auth/auth.controller.ts` (`AuthController`) — the `signout/:id`
  and `refresh?id=` handlers;
* `src/auth/guards/at.guard.ts` (`AtGuard`) and
  `src/auth/guards/roles.guard.ts` (`RolesGuard`);
* `src/auth/strategies/rt.strategy.ts` (`RfStrategy`) and
  `at.strategy.ts` (`AtStrategy`).

Bcrypt is modelled abstractly: a hash is a pair of the hashed plaintext and
the salt drawn for that call, and `compare` checks plaintext equality — this
captures exactly that bcrypt verification succeeds iff the same plaintext is
presented, while two hashes of the same plaintext with different salts are
distinct values. A signed JWT is modelled as its payload (sub, email, role,
exp) together with the secret that signed it; verification checks the secret
and the expiry. TypeORM's `update(id, patch)` on the profile table is
modelled as updating every row whose id matches and reporting the number of
matched rows as `affected` (PostgreSQL semantics).
-/

namespace NestAuth

/-- `Role` enum from `profile.entity.ts`: STUDENT, FACULTY, ADMIN, GUEST. -/
inductive Role where
  | student
  | faculty
  | admin
  | guest
deriving DecidableEq, Repr

/-- Model of a bcrypt hash of a password: the hashed plaintext plus the
salt generated for the call (`Bcrypt.genSalt(10)` then `Bcrypt.hash`). -/
structure PwHash where
  plain : String
  salt : Nat
deriving DecidableEq, Repr

/-- `Bcrypt.compare(plaintext, storedHash)` for passwords: true iff the
presented plaintext is the one that was hashed. -/
def pwCompare (plaintext : String) (h : PwHash) : Bool :=
  plaintext = h.plain

/-- JWT payload as signed by `AuthService.getTokens`: `{sub, email, role}`
plus the `exp` claim the JWT library adds from `expiresIn`. -/
structure JWTPayload where
  sub : Nat
  email : String
  role : Role
  exp : Nat
deriving DecidableEq, Repr

/-- A signed JWT: its payload together with the secret it was signed with.
Signature verification against a secret succeeds iff the secrets match. -/
structure Jwt where
  payload : JWTPayload
  secret : String
deriving DecidableEq, Repr

/-- Model of a bcrypt hash of a refresh token (the token string is a
faithful injective encoding of the `Jwt` value). -/
structure RtHash where
  token : Jwt
  salt : Nat
deriving DecidableEq, Repr

/-- `Bcrypt.compare(refreshToken, storedHash)` for refresh tokens. -/
def rtCompare (presented : Jwt) (h : RtHash) : Bool :=
  presented = h.token

/-- The `Profile` entity fields the auth core reads and writes:
`id`, `email`, `password` (bcrypt hash), `role`, `hashedRefreshToken`. -/
structure Profile where
  id : Nat
  email : String
  password : PwHash
  role : Role
  hashedRefreshToken : Option RtHash
deriving DecidableEq, Repr

/-- The profile table consumed through the TypeORM repository. -/
abbrev Store := List Profile

/-- The four required configuration values (`getOrThrow`): the two signing
secrets and the two token lifetimes. -/
structure Config where
  accessSecret : String
  refreshSecret : String
  accessExpirationTime : Nat
  refreshExpirationTime : Nat
deriving DecidableEq, Repr

/-- `profileRepository.findOne({where: {email}})`: first row matching
the email. -/
def findByEmail : Store → String → Option Profile
  | [], _ => none
  | p :: ps, e => if p.email = e then some p else findByEmail ps e

/-- `profileRepository.findOne({where: {id}})`: first row matching the id. -/
def findById : Store → Nat → Option Profile
  | [], _ => none
  | p :: ps, i => if p.id = i then some p else findById ps i

/-- `profileRepository.update(id, {hashedRefreshToken: v})`: overwrite the
field on every row whose id matches. -/
def updateRt : Store → Nat → Option RtHash → Store
  | [], _, _ => []
  | p :: ps, i, v =>
    (if p.id = i then { p with hashedRefreshToken := v } else p) :: updateRt ps i v

/-- The `affected` count reported by `profileRepository.update(id, ...)`:
the number of rows matched by the id. -/
def affectedById : Store → Nat → Nat
  | [], _ => 0
  | p :: ps, i => (if p.id = i then 1 else 0) + affectedById ps i

/-- The `{accessToken, refreshToken}` pair returned by the auth service. -/
structure Tokens where
  accessToken : Jwt
  refreshToken : Jwt
deriving DecidableEq, Repr

/-- `AuthService.getTokens(userId, email, role)`: signs two tokens with the
same `{sub, email, role}` claims, the access token with the access secret
and lifetime, the refresh token with the refresh secret and lifetime.
`iat` is the issue instant the JWT library stamps; `exp = iat + lifetime`. -/
def getTokens (cfg : Config) (userId : Nat) (email : String) (role : Role)
    (iat : Nat) : Tokens :=
  { accessToken :=
      { payload :=
          { sub := userId, email := email, role := role
            exp := iat + cfg.accessExpirationTime }
        secret := cfg.accessSecret }
    refreshToken :=
      { payload :=
          { sub := userId, email := email, role := role
            exp := iat + cfg.refreshExpirationTime }
        secret := cfg.refreshSecret } }

/-- Errors thrown by the auth core: `NotFoundException(msg)` from the
service, `UnauthorizedException(msg)` from the controller/guards. -/
inductive AuthError where
  | notFound (msg : String)
  | unauthorized (msg : String)
deriving DecidableEq, Repr

/-- True iff the error is a `NotFoundException`. -/
def AuthError.isNotFound : AuthError → Bool
  | .notFound _ => true
  | .unauthorized _ => false

/-- `AuthService.saveRefreshToken(userId, refreshToken)`: bcrypt-hash the
refresh token with a fresh salt and store the hash on the user's row. -/
def saveRefreshToken (store : Store) (userId : Nat) (refreshToken : Jwt)
    (salt : Nat) : Store :=
  updateRt store userId (some { token := refreshToken, salt := salt })

/-- `AuthService.signIn(createAuthDto)`. Looks up the profile by email
(`NotFoundException` naming the email if absent), bcrypt-compares the
password (`NotFoundException('Invalid credentials')` on mismatch), then
issues a token pair and persists the hashed refresh token. `iat` is the
issue instant and `salt` the bcrypt salt drawn for this call. Returns the
tokens together with the updated store. -/
def signIn (cfg : Config) (store : Store) (email password : String)
    (iat salt : Nat) : Except AuthError (Tokens × Store) :=
  match findByEmail store email with
  | none => .error (.notFound ("User with email " ++ email ++ " not found"))
  | some foundUser =>
    if pwCompare password foundUser.password then
      let tokens := getTokens cfg foundUser.id foundUser.email foundUser.role iat
      .ok (tokens, saveRefreshToken store foundUser.id tokens.refreshToken salt)
    else
      .error (.notFound "Invalid credentials")

/-- `AuthService.signOut(userId)`: set `hashedRefreshToken` to null; if the
update affected zero rows throw `NotFoundException`, else return a success
message. -/
def signOut (store : Store) (userId : Nat) :
    Except AuthError (String × Store) :=
  let res := updateRt store userId none
  if affectedById store userId = 0 then
    .error (.notFound ("User with ID " ++ toString userId ++ " not found"))
  else
    .ok ("User with id : " ++ toString userId ++ " signed out successfully", res)

/-- `AuthService.refreshTokens(id, refreshToken)`: find the profile by id
(`NotFoundException` if absent), require a stored refresh-token hash
(`NotFoundException('No refresh token found')` if null), bcrypt-compare the
presented token against the stored hash
(`NotFoundException('Invalid refresh token')` on mismatch), then rotate:
issue a new pair and overwrite the stored hash with the new token's hash. -/
def refreshTokens (cfg : Config) (store : Store) (id : Nat)
    (refreshToken : Jwt) (iat salt : Nat) :
    Except AuthError (Tokens × Store) :=
  match findById store id with
  | none => .error (.notFound ("User with ID " ++ toString id ++ " not found"))
  | some foundUser =>
    match foundUser.hashedRefreshToken with
    | none => .error (.notFound "No refresh token found")
    | some stored =>
      if rtCompare refreshToken stored then
        let tokens := getTokens cfg foundUser.id foundUser.email foundUser.role iat
        .ok (tokens, saveRefreshToken store foundUser.id tokens.refreshToken salt)
      else
        .error (.notFound "Invalid refresh token")

/-- Passport JWT verification (`passport-jwt` `Strategy`): the token must be
signed with the expected secret and not be expired at the current time. -/
def verifyJwt (secret : String) (now : Nat) (token : Jwt) : Option JWTPayload :=
  if token.secret = secret ∧ now < token.payload.exp then
    some token.payload
  else
    none

/-- `AtGuard.canActivate`: if the route's `isPublic` metadata is set, allow
without inspecting the token; otherwise run the `jwt-at` strategy — reject
when no bearer token is present, otherwise verify it against the access
secret. -/
def atGuardCanActivate (cfg : Config) (now : Nat) (isPublic : Bool)
    (bearer : Option Jwt) : Bool :=
  if isPublic then
    true
  else
    match bearer with
    | none => false
    | some t => (verifyJwt cfg.accessSecret now t).isSome

/-- `RolesGuard.canActivate`: read the `requiredRoles` metadata. JS's
`if (!requiredRoles) return true` passes only when the metadata is unset
(`undefined`) — an empty array is truthy and falls through. Then deny if no
`request.user`, deny if the fresh profile lookup by `user.sub` finds no row,
else allow iff `requiredRoles.some(role => userProfile.role === role)`. -/
def rolesGuardCanActivate (store : Store) (requiredRoles : Option (List Role))
    (user : Option JWTPayload) : Bool :=
  match requiredRoles with
  | none => true
  | some roles =>
    match user with
    | none => false
    | some u =>
      match findById store u.sub with
      | none => false
      | some userProfile => roles.any (fun role => userProfile.role = role)

/-- `RfStrategy.validate` behind `RtGuard`: the bearer token is verified
against the refresh secret; on success the payload plus the raw presented
token is attached as `request.user`. `none` models guard rejection
(`UnauthorizedException`). -/
def rtGuardValidate (cfg : Config) (now : Nat) (bearer : Option Jwt) :
    Option (JWTPayload × Jwt) :=
  match bearer with
  | none => none
  | some t =>
    match verifyJwt cfg.refreshSecret now t with
    | none => none
    | some p => some (p, t)

/-- `AuthController.refreshTokens` for `GET /auth/refresh?id=`: runs
`RtGuard`; on guard rejection the request fails 401; then throws
`UnauthorizedException('Invalid user')` when `user.sub !== id`; else calls
`AuthService.refreshTokens(id, user.refreshToken)`. -/
def controllerRefreshTokens (cfg : Config) (store : Store) (now : Nat)
    (id : Nat) (bearer : Option Jwt) (iat salt : Nat) :
    Except AuthError (Tokens × Store) :=
  match rtGuardValidate cfg now bearer with
  | none => .error (.unauthorized "Unauthorized")
  | some (user, presented) =>
    if user.sub ≠ id then
      .error (.unauthorized "Invalid user")
    else
      refreshTokens cfg store id presented iat salt

/-- `AuthController.signOut` for `GET /auth/signout/:id` (behind `AtGuard`):
the authenticated caller's payload is available as `request.user` but the
handler only forwards the `:id` path parameter to `AuthService.signOut`. -/
def controllerSignOut (store : Store) (_caller : JWTPayload) (id : Nat) :
    Except AuthError (String × Store) :=
  signOut store id

/-! Concrete fixtures used to instantiate theorems with hypotheses. -/

/-- A concrete configuration: distinct secrets, 15-unit access lifetime,
300-unit refresh lifetime. -/
def cfgW : Config :=
  { accessSecret := "asec", refreshSecret := "rsec"
    accessExpirationTime := 15, refreshExpirationTime := 300 }

/-- A concrete stored profile: id 1, student role, no active session. -/
def profW : Profile :=
  { id := 1, email := "a@x.com", password := { plain := "pw123", salt := 0 }
    role := Role.student, hashedRefreshToken := none }

/-- A one-row credential store holding `profW`. -/
def storeW : Store := [profW]

/-- A decoded access-token payload for `profW`. -/
def payloadW : JWTPayload :=
  { sub := 1, email := "a@x.com", role := Role.student, exp := 100 }

/-- The refresh token issued to `profW` by `signIn` at instant 0 under
`cfgW`. -/
def rtA : Jwt :=
  { payload := { sub := 1, email := "a@x.com", role := Role.student, exp := 300 }
    secret := "rsec" }

/-- The token pair issued to `profW` by `signIn` at instant 0 under
`cfgW`. -/
def toksA : Tokens :=
  { accessToken :=
      { payload := { sub := 1, email := "a@x.com", role := Role.student, exp := 15 }
        secret := "asec" }
    refreshToken := rtA }

/-- The store after that `signIn`: `profW` with `rtA`'s hash persisted. -/
def storeA : Store :=
  [{ profW with hashedRefreshToken := some { token := rtA, salt := 0 } }]

/-- The refresh token issued by the subsequent `refreshTokens` call at
instant 1. -/
def rtB : Jwt :=
  { payload := { sub := 1, email := "a@x.com", role := Role.student, exp := 301 }
    secret := "rsec" }

/-- The token pair issued by that `refreshTokens` call. -/
def toksB : Tokens :=
  { accessToken :=
      { payload := { sub := 1, email := "a@x.com", role := Role.student, exp := 16 }
        secret := "asec" }
    refreshToken := rtB }

/-- The store after the rotation: `rtA`'s hash overwritten by `rtB`'s. -/
def storeB : Store :=
  [{ profW with hashedRefreshToken := some { token := rtB, salt := 1 } }]

/-! Helper lemmas about the store operations. -/

/-- A profile found by id carries that id. -/
theorem findById_some_id {i : Nat} {p : Profile} :
    ∀ {store : Store}, findById store i = some p → p.id = i := by
  intro store
  induction store with
  | nil => intro h; simp [findById] at h
  | cons q qs ih =>
    intro h
    simp only [findById] at h
    split at h
    next hq =>
      injection h with h2
      subst h2
      exact hq
    next => exact ih h

/-- Looking up the id just updated returns the found row with the
refresh-token field overwritten. -/
theorem findById_updateRt (store : Store) (i : Nat) (v : Option RtHash) :
    findById (updateRt store i v) i =
      (findById store i).map (fun p => { p with hashedRefreshToken := v }) := by
  induction store with
  | nil => rfl
  | cons q qs ih =>
    by_cases hq : q.id = i
    · simp [updateRt, findById, hq]
    · simp [updateRt, findById, hq, ih]

/-- The update's `affected` count is zero exactly when no row has the id. -/
theorem affectedById_eq_zero_iff (store : Store) (i : Nat) :
    affectedById store i = 0 ↔ findById store i = none := by
  induction store with
  | nil => simp [affectedById, findById]
  | cons q qs ih =>
    by_cases hq : q.id = i
    · simp [affectedById, findById, hq]
    · simp [affectedById, findById, hq, ih]

/-- Updating the refresh-token field never changes which rows an id
matches. -/
theorem affectedById_updateRt (store : Store) (i j : Nat) (v : Option RtHash) :
    affectedById (updateRt store i v) j = affectedById store j := by
  induction store with
  | nil => rfl
  | cons q qs ih =>
    by_cases hq : q.id = i
    · simp [updateRt, affectedById, hq, ih]
    · simp [updateRt, affectedById, hq, ih]

/-- Overwriting the refresh-token field twice with the same value is the
same as doing it once. -/
theorem updateRt_idem (store : Store) (i : Nat) (v : Option RtHash) :
    updateRt (updateRt store i v) i v = updateRt store i v := by
  induction store with
  | nil => rfl
  | cons q qs ih =>
    by_cases hq : q.id = i
    · simp [updateRt, hq, ih]
    · simp [updateRt, hq, ih]

/-- Refreshing against a store whose row for `id` was just overwritten with
the hash of `newRt` rejects any presented token other than `newRt` with the
`Invalid refresh token` error. -/
theorem refreshTokens_after_overwrite (cfg : Config) (store : Store)
    (id : Nat) (u : Profile) (hfi : findById store id = some u)
    (newRt old : Jwt) (salt iat3 salt3 : Nat) (hne : old ≠ newRt) :
    refreshTokens cfg (saveRefreshToken store id newRt salt) id old iat3 salt3
      = .error (.notFound "Invalid refresh token") := by
  unfold refreshTokens saveRefreshToken
  rw [findById_updateRt, hfi]
  simp [rtCompare, hne]

/-- Refreshing against a store whose row for `id` was just cleared fails
with the `No refresh token found` error, for every presented token. -/
theorem refreshTokens_after_clear (cfg : Config) (store : Store) (id : Nat)
    (u : Profile) (hfi : findById store id = some u) (rt : Jwt)
    (iat salt : Nat) :
    refreshTokens cfg (updateRt store id none) id rt iat salt
      = .error (.notFound "No refresh token found") := by
  unfold refreshTokens
  rw [findById_updateRt, hfi]
  simp

/-! Claim theorems. -/

/-- C1: on a route whose `requiredRoles` metadata is a non-empty set, the
`RolesGuard` denies when no authenticated identity is attached, denies when
no profile exists in the store for the identity's subject id, and otherwise
allows iff the role freshly read from the store is a member of
`requiredRoles` (pure set membership). -/
theorem C1_rolesGuard_nonempty_decision (store : Store) (roles : List Role)
    (hne : roles ≠ []) (user : Option JWTPayload) :
    (user = none → rolesGuardCanActivate store (some roles) user = false) ∧
    (∀ u, user = some u → findById store u.sub = none →
      rolesGuardCanActivate store (some roles) user = false) ∧
    (∀ u p, user = some u → findById store u.sub = some p →
      (rolesGuardCanActivate store (some roles) user = true ↔ p.role ∈ roles)) := by
  refine ⟨?_, ?_, ?_⟩
  · intro h; subst h; rfl
  · intro u h hf; subst h
    simp [rolesGuardCanActivate, hf]
  · intro u p h hf; subst h
    simp only [rolesGuardCanActivate, hf, List.any_eq_true, decide_eq_true_eq]
    constructor
    · rintro ⟨r, hr, he⟩
      exact he ▸ hr
    · intro hm
      exact ⟨p.role, hm, rfl⟩

/-- C1 witness: concrete store, `requiredRoles = [student]`, authenticated
student identity 1 — the guard allows, by membership. -/
theorem C1_rolesGuard_nonempty_decision_witness :
    rolesGuardCanActivate storeW (some [Role.student]) (some payloadW) = true :=
  ((C1_rolesGuard_nonempty_decision storeW [Role.student] (by decide)
      (some payloadW)).2.2 payloadW profW rfl rfl).mpr (by decide)

/-- C2: the `RolesGuard` decision depends only on the token's subject id
and the store — two payloads agreeing on `sub` but differing in the
embedded role claim get the same outcome; when a profile exists for the
subject id the outcome equals membership of the freshly-read stored role
in `requiredRoles`, so after a store-side role change the next request is
decided by the new stored role, never the token's role claim. -/
theorem C2_decision_ignores_token_role_claim :
    (∀ (store : Store) (rr : Option (List Role)) (u1 u2 : JWTPayload),
      u1.sub = u2.sub →
      rolesGuardCanActivate store rr (some u1)
        = rolesGuardCanActivate store rr (some u2)) ∧
    (∀ (store : Store) (roles : List Role) (u : JWTPayload) (p : Profile),
      findById store u.sub = some p →
      rolesGuardCanActivate store (some roles) (some u)
        = roles.any (fun r => p.role = r)) := by
  constructor
  · intro store rr u1 u2 hsub
    cases rr with
    | none => rfl
    | some roles =>
      simp only [rolesGuardCanActivate, hsub]
  · intro store roles u p hf
    simp [rolesGuardCanActivate, hf]

/-- C2 witness: identity 1's stored role is STUDENT; a token claiming ADMIN
for subject 1 and a token claiming STUDENT for subject 1 get the same
decision, and the decision follows the stored role. -/
theorem C2_decision_ignores_token_role_claim_witness :
    rolesGuardCanActivate storeW (some [Role.admin])
        (some { sub := 1, email := "a@x.com", role := Role.admin, exp := 100 })
      = rolesGuardCanActivate storeW (some [Role.admin]) (some payloadW)
    ∧ rolesGuardCanActivate storeW (some [Role.admin]) (some payloadW)
      = [Role.admin].any (fun r => profW.role = r) :=
  ⟨(C2_decision_ignores_token_role_claim).1 storeW (some [Role.admin])
      { sub := 1, email := "a@x.com", role := Role.admin, exp := 100 } payloadW rfl,
    (C2_decision_ignores_token_role_claim).2 storeW [Role.admin] payloadW profW rfl⟩

/-- C4 counterexample: with `requiredRoles` present but empty, an
authenticated ADMIN identity whose profile exists in the store is denied —
the claim that the guard allows every authenticated identity here is false
on the code (`![]` is false in JS, and `[].some(...)` is false). -/
theorem C4_counterexample :
    rolesGuardCanActivate
        [{ id := 1, email := "a@x.com", password := { plain := "pw123", salt := 0 }
           role := Role.admin, hashedRefreshToken := none }]
        (some []) (some { sub := 1, email := "a@x.com", role := Role.admin, exp := 100 })
      = false := by decide

/-- C4 amended: a route whose `requiredRoles` metadata is present but empty
is denied by the `RolesGuard` for every request, authenticated or not; only
an unset `requiredRoles` means any authenticated identity passes. -/
theorem C4_empty_roles_deny (store : Store) :
    (∀ user : Option JWTPayload,
      rolesGuardCanActivate store (some []) user = false) ∧
    (∀ user : Option JWTPayload,
      rolesGuardCanActivate store none user = true) := by
  constructor
  · intro user
    cases user with
    | none => rfl
    | some u =>
      simp only [rolesGuardCanActivate]
      cases findById store u.sub <;> simp
  · intro user; rfl

/-- C6: a route tagged public is allowed by the `AtGuard` for every bearer
slot — including no Authorization header at all — and the outcome never
depends on the token, so no token inspection occurs and the public tag
overrides the globally applied default-deny guard. -/
theorem C6_public_bypasses_authentication (cfg : Config) (now : Nat) :
    atGuardCanActivate cfg now true none = true ∧
    (∀ bearer : Option Jwt, atGuardCanActivate cfg now true bearer = true) :=
  ⟨rfl, fun _ => rfl⟩

/-- C5 counterexample: on the one-row store, signing in with an absent
email yields `NotFoundException('User with email b@x.com not found')`
while signing in with the stored email and a wrong password yields
`NotFoundException('Invalid credentials')` — two distinct external
outcomes, the first naming the email, so the failures are distinguishable
and reveal which field failed. -/
theorem C5_counterexample :
    signIn cfgW storeW "b@x.com" "pw123" 0 0
        = .error (.notFound "User with email b@x.com not found") ∧
    signIn cfgW storeW "a@x.com" "wrong" 0 0
        = .error (.notFound "Invalid credentials") ∧
    AuthError.notFound "User with email b@x.com not found"
      ≠ AuthError.notFound "Invalid credentials" :=
  ⟨rfl, rfl, by decide⟩

/-- C5 amended: both sign-in failure modes throw the same exception class
(`NotFoundException`), but with different messages — unknown email yields
`User with email <email> not found` (embedding the probed email and
revealing the account does not exist), wrong password yields
`Invalid credentials` — so the two outcomes are externally distinguishable
rather than indistinguishable. -/
theorem C5_signin_failures_distinguishable (cfg : Config) (store : Store)
    (email password : String) (iat salt : Nat) :
    (findByEmail store email = none →
      signIn cfg store email password iat salt
        = .error (.notFound ("User with email " ++ email ++ " not found"))) ∧
    (∀ p, findByEmail store email = some p →
      pwCompare password p.password = false →
      signIn cfg store email password iat salt
        = .error (.notFound "Invalid credentials")) := by
  constructor
  · intro hf
    simp [signIn, hf]
  · intro p hf hpw
    simp [signIn, hf, hpw]

/-- C5 amended witness: both failure branches realized on the one-row
store. -/
theorem C5_signin_failures_distinguishable_witness :
    signIn cfgW storeW "b@x.com" "pw123" 0 0
        = .error (.notFound ("User with email " ++ "b@x.com" ++ " not found")) ∧
    signIn cfgW storeW "a@x.com" "wrong" 0 0
        = .error (.notFound "Invalid credentials") :=
  ⟨(C5_signin_failures_distinguishable cfgW storeW "b@x.com" "pw123" 0 0).1 rfl,
    (C5_signin_failures_distinguishable cfgW storeW "a@x.com" "wrong" 0 0).2
      profW rfl (by decide)⟩

/-- C8: `signOut` is idempotent for every identity present in the store —
the first call succeeds and clears the stored refresh-token hash, and the
second call on the already-cleared store succeeds with the same result
(a no-op: the store is unchanged by the second update); for an id with no
identity record `signOut` fails with `NotFoundException`. -/
theorem C8_signOut_idempotent (store : Store) (id : Nat) :
    (∀ p, findById store id = some p →
      signOut store id
          = .ok ("User with id : " ++ toString id ++ " signed out successfully",
                 updateRt store id none) ∧
      signOut (updateRt store id none) id
          = .ok ("User with id : " ++ toString id ++ " signed out successfully",
                 updateRt store id none)) ∧
    (findById store id = none →
      signOut store id
        = .error (.notFound ("User with ID " ++ toString id ++ " not found"))) := by
  constructor
  · intro p hf
    have haff : ¬ affectedById store id = 0 := by
      rw [affectedById_eq_zero_iff, hf]
      simp
    constructor
    · simp [signOut, haff]
    · have haff2 : ¬ affectedById (updateRt store id none) id = 0 := by
        rw [affectedById_updateRt]
        exact haff
      simp [signOut, haff2, updateRt_idem]
  · intro hf
    have haff : affectedById store id = 0 := by
      rw [affectedById_eq_zero_iff]
      exact hf
    simp [signOut, haff]

/-- C8 witness: identity 1 exists in the one-row store; both consecutive
sign-outs succeed with the cleared store. -/
theorem C8_signOut_idempotent_witness :
    signOut storeW 1
        = .ok ("User with id : " ++ toString 1 ++ " signed out successfully",
               updateRt storeW 1 none) ∧
    signOut (updateRt storeW 1 none) 1
        = .ok ("User with id : " ++ toString 1 ++ " signed out successfully",
               updateRt storeW 1 none) :=
  (C8_signOut_idempotent storeW 1).1 profW rfl

/-- C9: every failure path of the auth service (`signIn`, `signOut`,
`refreshTokens`) throws `NotFoundException` — unknown email, wrong
password, absent identity on sign-out, absent identity on refresh, absent
stored hash on refresh, and refresh-hash mismatch all surface as the same
404-style error class, never a distinct 401/403-style credential error. -/
theorem C9_service_failures_all_notFound :
    (∀ (cfg : Config) (store : Store) (email password : String)
        (iat salt : Nat) (e : AuthError),
      signIn cfg store email password iat salt = .error e →
      e.isNotFound = true) ∧
    (∀ (store : Store) (id : Nat) (e : AuthError),
      signOut store id = .error e → e.isNotFound = true) ∧
    (∀ (cfg : Config) (store : Store) (id : Nat) (rt : Jwt)
        (iat salt : Nat) (e : AuthError),
      refreshTokens cfg store id rt iat salt = .error e →
      e.isNotFound = true) := by
  refine ⟨?_, ?_, ?_⟩
  · intro cfg store email password iat salt e h
    cases hf : findByEmail store email with
    | none =>
      simp [signIn, hf] at h
      subst h
      rfl
    | some p =>
      by_cases hpw : pwCompare password p.password = true
      · simp [signIn, hf, hpw] at h
      · simp [signIn, hf, hpw] at h
        subst h
        rfl
  · intro store id e h
    by_cases haff : affectedById store id = 0
    · simp [signOut, haff] at h
      subst h
      rfl
    · simp [signOut, haff] at h
  · intro cfg store id rt iat salt e h
    cases hf : findById store id with
    | none =>
      simp [refreshTokens, hf] at h
      subst h
      rfl
    | some p =>
      cases hh : p.hashedRefreshToken with
      | none =>
        simp [refreshTokens, hf, hh] at h
        subst h
        rfl
      | some stored =>
        by_cases hc : rtCompare rt stored = true
        · simp [refreshTokens, hf, hh, hc] at h
        · simp [refreshTokens, hf, hh, hc] at h
          subst h
          rfl

/-- C9 witness: the unknown-email failure on the one-row store is a
`NotFoundException`. -/
theorem C9_service_failures_all_notFound_witness :
    AuthError.isNotFound
        (AuthError.notFound "User with email b@x.com not found") = true :=
  C9_service_failures_all_notFound.1 cfgW storeW "b@x.com" "pw123" 0 0
    (AuthError.notFound "User with email b@x.com not found") rfl

/-- C10: the sign-out endpoint performs no caller-identity match — for any
two authenticated callers the outcome on the same target id is identical,
and whenever the target identity exists the call succeeds and clears that
identity's stored refresh-token hash, regardless of whether the caller's
subject equals the target id. -/
theorem C10_signout_ignores_caller (store : Store) (id : Nat) :
    (∀ c1 c2 : JWTPayload,
      controllerSignOut store c1 id = controllerSignOut store c2 id) ∧
    (∀ (c : JWTPayload) (p : Profile), findById store id = some p →
      controllerSignOut store c id
          = .ok ("User with id : " ++ toString id ++ " signed out successfully",
                 updateRt store id none) ∧
      findById (updateRt store id none) id
          = some { p with hashedRefreshToken := none }) := by
  constructor
  · intro c1 c2; rfl
  · intro c p hf
    have haff : ¬ affectedById store id = 0 := by
      rw [affectedById_eq_zero_iff, hf]
      simp
    constructor
    · simp [controllerSignOut, signOut, haff]
    · rw [findById_updateRt, hf]
      rfl

/-- C3: refresh-token rotation makes refresh tokens single-use, and
sign-out revokes them. After a successful `signIn` and one successful
`refreshTokens` call with the issued refresh token (at a different issue
instant, so the rotated token differs), presenting the old refresh token
again fails with the `Invalid refresh token` error — the stored hash was
overwritten. After a successful `signOut`, any refresh for that id fails
with the `No refresh token found` error — the stored hash was cleared to
null. -/
theorem C3_refresh_rotation_single_use :
    (∀ (cfg : Config) (store : Store) (email password : String)
        (iat1 salt1 : Nat) (tok1 : Tokens) (store1 : Store) (id : Nat)
        (iat2 salt2 : Nat) (tok2 : Tokens) (store2 : Store) (iat3 salt3 : Nat),
      signIn cfg store email password iat1 salt1 = .ok (tok1, store1) →
      refreshTokens cfg store1 id tok1.refreshToken iat2 salt2
        = .ok (tok2, store2) →
      iat1 ≠ iat2 →
      refreshTokens cfg store2 id tok1.refreshToken iat3 salt3
        = .error (.notFound "Invalid refresh token")) ∧
    (∀ (cfg : Config) (store : Store) (id : Nat) (msg : String)
        (store1 : Store) (rt : Jwt) (iat salt : Nat),
      signOut store id = .ok (msg, store1) →
      refreshTokens cfg store1 id rt iat salt
        = .error (.notFound "No refresh token found")) := by
  constructor
  · intro cfg store email password iat1 salt1 tok1 store1 id iat2 salt2 tok2
      store2 iat3 salt3 hsign href hiat
    cases hf : findByEmail store email with
    | none => simp [signIn, hf] at hsign
    | some fu =>
      by_cases hpw : pwCompare password fu.password = true
      · simp [signIn, hf, hpw] at hsign
        obtain ⟨htok1, -⟩ := hsign
        cases hfi : findById store1 id with
        | none => simp [refreshTokens, hfi] at href
        | some u1 =>
          cases hh : u1.hashedRefreshToken with
          | none => simp [refreshTokens, hfi, hh] at href
          | some stored =>
            by_cases hc : rtCompare tok1.refreshToken stored = true
            · simp [refreshTokens, hfi, hh, hc] at href
              obtain ⟨htok2, hstore2⟩ := href
              have hid : u1.id = id := findById_some_id hfi
              subst hstore2
              rw [hid]
              have hne : tok1.refreshToken
                  ≠ (getTokens cfg id u1.email u1.role iat2).refreshToken := by
                subst htok1
                intro he
                have hexp := congrArg (fun t => t.payload.exp) he
                simp [getTokens] at hexp
                omega
              exact refreshTokens_after_overwrite cfg store1 id u1 hfi _ _
                salt2 iat3 salt3 hne
            · simp [refreshTokens, hfi, hh, hc] at href
      · simp [signIn, hf, hpw] at hsign
  · intro cfg store id msg store1 rt iat salt hout
    by_cases haff : affectedById store id = 0
    · simp [signOut, haff] at hout
    · simp [signOut, haff] at hout
      obtain ⟨-, hstore1⟩ := hout
      subst hstore1
      cases hp : findById store id with
      | none =>
        rw [← affectedById_eq_zero_iff] at hp
        exact absurd hp haff
      | some p =>
        exact refreshTokens_after_clear cfg store id p hp rt iat salt

/-- C3 witness: concrete run of the scenario — sign in at instant 0,
refresh at instant 1, then the old refresh token is rejected at instant 2;
and after signing out of the post-sign-in store, refresh fails for lack of
a stored hash. -/
theorem C3_refresh_rotation_single_use_witness :
    refreshTokens cfgW storeB 1 toksA.refreshToken 2 2
        = .error (.notFound "Invalid refresh token") ∧
    refreshTokens cfgW (updateRt storeA 1 none) 1 toksA.refreshToken 3 3
        = .error (.notFound "No refresh token found") :=
  ⟨C3_refresh_rotation_single_use.1 cfgW storeW "a@x.com" "pw123" 0 0
      toksA storeA 1 1 1 toksB storeB 2 2 rfl rfl (by decide),
    C3_refresh_rotation_single_use.2 cfgW storeA 1
      ("User with id : " ++ toString 1 ++ " signed out successfully")
      (updateRt storeA 1 none) toksA.refreshToken 3 3 rfl⟩

/-- C7: the refresh endpoint verifies the bearer token against the refresh
secret — a token signed with any other secret (the access secret included)
is rejected by the guard; a refresh-secret-verified token whose subject
differs from the `id` query parameter fails with
`UnauthorizedException('Invalid user')`; and only when the subject equals
`id` is `AuthService.refreshTokens` invoked for that id with the raw
presented token. -/
theorem C7_refresh_endpoint_checks (cfg : Config) (store : Store)
    (now id iat salt : Nat) :
    (∀ t : Jwt, t.secret ≠ cfg.refreshSecret →
      controllerRefreshTokens cfg store now id (some t) iat salt
        = .error (.unauthorized "Unauthorized")) ∧
    (∀ (t : Jwt) (p : JWTPayload),
      verifyJwt cfg.refreshSecret now t = some p → p.sub ≠ id →
      controllerRefreshTokens cfg store now id (some t) iat salt
        = .error (.unauthorized "Invalid user")) ∧
    (∀ (t : Jwt) (p : JWTPayload),
      verifyJwt cfg.refreshSecret now t = some p → p.sub = id →
      controllerRefreshTokens cfg store now id (some t) iat salt
        = refreshTokens cfg store id t iat salt) := by
  refine ⟨?_, ?_, ?_⟩
  · intro t hsec
    have hv : verifyJwt cfg.refreshSecret now t = none := by
      unfold verifyJwt
      exact if_neg (fun hc => hsec hc.1)
    simp [controllerRefreshTokens, rtGuardValidate, hv]
  · intro t p hv hsub
    simp [controllerRefreshTokens, rtGuardValidate, hv, hsub]
  · intro t p hv hsub
    have hp : p = t.payload := by
      unfold verifyJwt at hv
      split at hv
      · injection hv with hv2
        exact hv2.symm
      · cases hv
    subst hp
    simp [controllerRefreshTokens, rtGuardValidate, hv, hsub]

/-- C7 witness: the refresh-secret-signed token for subject 1 with matching
query id 1 reaches `AuthService.refreshTokens` with the raw token. -/
theorem C7_refresh_endpoint_checks_witness :
    controllerRefreshTokens cfgW storeW 50 1 (some rtA) 0 0
      = refreshTokens cfgW storeW 1 rtA 0 0 :=
  (C7_refresh_endpoint_checks cfgW storeW 50 1 0 0).2.2 rtA rtA.payload
    (by decide) rfl

/-- C10 witness: a caller with subject 2 (different from the target id 1)
signs out identity 1 successfully, clearing its stored hash. -/
theorem C10_signout_ignores_caller_witness :
    controllerSignOut storeW
        { sub := 2, email := "c@x.com", role := Role.guest, exp := 100 } 1
        = .ok ("User with id : " ++ toString 1 ++ " signed out successfully",
               updateRt storeW 1 none) ∧
    findById (updateRt storeW 1 none) 1
        = some { profW with hashedRefreshToken := none } :=
  (C10_signout_ignores_caller storeW 1).2
    { sub := 2, email := "c@x.com", role := Role.guest, exp := 100 } profW rfl

end NestAuth
